import Mathlib

/-!
Verification of `src/packages/game-shared/src/util/runtime-keybindings.ts`:
a shallow embedding of the runtime keybindings module (token normalization,
reserved/conflict checking, mapping sanitization and persistence) together
with proofs of the specified properties.

The embedding models JavaScript property reads on the alias object literal
faithfully, including the prototype chain: a bracket read on a plain object
literal also finds the inherited members of `Object.prototype`.  Because the
lookup key is lowercased first, exactly the two all-lowercase-named members
`constructor` (the `Object` constructor function) and `__proto__`
(`Object.prototype`) are reachable; every other member of `Object.prototype`
(`hasOwnProperty`, `isPrototypeOf`, `propertyIsEnumerable`, `toLocaleString`,
`toString`, `valueOf`, `__defineGetter__`, `__defineSetter__`,
`__lookupGetter__`, `__lookupSetter__`) has a mixed-case name that a
lowercased key can never equal.  Both reachable values are truthy and
non-strings, so `if (alias) return alias` returns them from the normalizer.
-/

set_option maxRecDepth 4096

/-- The fixed, closed enumeration of rebindable actions, in the declaration
order of the `RebindableActionId` union / the `DEFAULT_RUNTIME_KEYBINDINGS`
object literal in the source. -/
inductive RebindableActionId where
  | moveUp
  | moveLeft
  | moveDown
  | moveRight
  | sprint
  | interact
  | teleportToBase
  | quickHeal
  | dropItem
  | splitDropItem
  | weaponsHud
  | quickSwitchWeapon
  | chat
  | playerList
  | controlsPanel
deriving DecidableEq, Fintype, Repr

/-- `BindingToken` is a plain string in the source (`export type BindingToken = string`). -/
abbrev BindingToken := String

/-- `RuntimeKeybindings = Record<RebindableActionId, BindingToken>`: the
declared (string-valued) record type, embedded as a total function.  At
runtime the sanitizer can violate this declaration (see `BindingValue`). -/
abbrev RuntimeKeybindings := RebindableActionId → BindingToken

/-- The `DEFAULT_RUNTIME_KEYBINDINGS` object literal. -/
def DEFAULT_RUNTIME_KEYBINDINGS : RuntimeKeybindings := fun a =>
  match a with
  | .moveUp => "KeyW"
  | .moveLeft => "KeyA"
  | .moveDown => "KeyS"
  | .moveRight => "KeyD"
  | .sprint => "Shift"
  | .interact => "KeyE"
  | .teleportToBase => "KeyC"
  | .quickHeal => "KeyH"
  | .dropItem => "KeyG"
  | .splitDropItem => "KeyX"
  | .weaponsHud => "KeyF"
  | .quickSwitchWeapon => "KeyQ"
  | .chat => "KeyY"
  | .playerList => "Tab"
  | .controlsPanel => "KeyI"

/-- `REBINDABLE_ACTION_IDS = Object.keys(DEFAULT_RUNTIME_KEYBINDINGS)`: the
registry in its fixed declaration order. -/
def REBINDABLE_ACTION_IDS : List RebindableActionId :=
  [.moveUp, .moveLeft, .moveDown, .moveRight, .sprint, .interact, .teleportToBase,
   .quickHeal, .dropItem, .splitDropItem, .weaponsHud, .quickSwitchWeapon, .chat,
   .playerList, .controlsPanel]

/-- The string key under which each action is stored in the persisted record
(the property name of the TypeScript record). -/
def actionIdKey : RebindableActionId → String
  | .moveUp => "moveUp"
  | .moveLeft => "moveLeft"
  | .moveDown => "moveDown"
  | .moveRight => "moveRight"
  | .sprint => "sprint"
  | .interact => "interact"
  | .teleportToBase => "teleportToBase"
  | .quickHeal => "quickHeal"
  | .dropItem => "dropItem"
  | .splitDropItem => "splitDropItem"
  | .weaponsHud => "weaponsHud"
  | .quickSwitchWeapon => "quickSwitchWeapon"
  | .chat => "chat"
  | .playerList => "playerList"
  | .controlsPanel => "controlsPanel"

/-- The `RESERVED_CODES` set literal. -/
def RESERVED_CODES : List String :=
  ["Escape", "KeyM",
   "Digit0", "Digit1", "Digit2", "Digit3", "Digit4", "Digit5", "Digit6",
   "Digit7", "Digit8", "Digit9",
   "Numpad0", "Numpad1", "Numpad2", "Numpad3", "Numpad4", "Numpad5", "Numpad6",
   "Numpad7", "Numpad8", "Numpad9"]

/-- The own entries of the `CANONICAL_ALIASES` object literal: lowercase alias
to canonical token, in declaration order. -/
def CANONICAL_ALIASES : List (String × BindingToken) :=
  [("shiftleft", "Shift"), ("shiftright", "Shift"), ("shift", "Shift"),
   ("controlleft", "Control"), ("controlright", "Control"), ("control", "Control"),
   ("ctrl", "Control"),
   ("altleft", "Alt"), ("altright", "Alt"), ("alt", "Alt"),
   ("metaleft", "Meta"), ("metaright", "Meta"), ("meta", "Meta"),
   ("cmd", "Meta"), ("command", "Meta"),
   ("enter", "Enter"), ("tab", "Tab"), ("space", "Space"), (" ", "Space"),
   ("escape", "Escape"), ("esc", "Escape")]

/-- The finite language of the regex `/^Key[A-Z]$/`. -/
def KEY_CODES : List String :=
  ["KeyA", "KeyB", "KeyC", "KeyD", "KeyE", "KeyF", "KeyG", "KeyH", "KeyI",
   "KeyJ", "KeyK", "KeyL", "KeyM", "KeyN", "KeyO", "KeyP", "KeyQ", "KeyR",
   "KeyS", "KeyT", "KeyU", "KeyV", "KeyW", "KeyX", "KeyY", "KeyZ"]

/-- The finite language of the regex `/^Digit[0-9]$/`. -/
def DIGIT_CODES : List String :=
  ["Digit0", "Digit1", "Digit2", "Digit3", "Digit4", "Digit5", "Digit6",
   "Digit7", "Digit8", "Digit9"]

/-- The finite language of the regex `/^Numpad[0-9]$/`. -/
def NUMPAD_CODES : List String :=
  ["Numpad0", "Numpad1", "Numpad2", "Numpad3", "Numpad4", "Numpad5", "Numpad6",
   "Numpad7", "Numpad8", "Numpad9"]

/-- The finite language of the regex `/^Arrow(Up|Down|Left|Right)$/`. -/
def ARROW_CODES : List String :=
  ["ArrowUp", "ArrowDown", "ArrowLeft", "ArrowRight"]

/-- The finite language of the named-key alternation regex. -/
def NAMED_KEY_CODES : List String :=
  ["Enter", "Tab", "Space", "Backspace", "Delete", "Home", "End", "PageUp",
   "PageDown", "Insert"]

/-- The finite language of the regex `/^Bracket(Left|Right)$/`. -/
def BRACKET_CODES : List String :=
  ["BracketLeft", "BracketRight"]

/-- The finite language of the punctuation alternation regex. -/
def PUNCT_CODES : List String :=
  ["Semicolon", "Quote", "Comma", "Period", "Slash", "Backslash", "Minus",
   "Equal", "Backquote"]

/-- The whitespace set of the JavaScript `String.prototype.trim`: the
WhiteSpace production (TAB, VT, FF, SP, NBSP, ZWNBSP and the Unicode Zs
space separators U+1680, U+2000 through U+200A, U+202F, U+205F, U+3000) and
the LineTerminator production (LF, CR, LS, PS). -/
def isJsWhitespace (c : Char) : Bool :=
  c.toNat = 9 ∨ c.toNat = 10 ∨ c.toNat = 11 ∨ c.toNat = 12 ∨ c.toNat = 13 ∨
  c.toNat = 32 ∨ c.toNat = 160 ∨ c.toNat = 5760 ∨
  (8192 ≤ c.toNat ∧ c.toNat ≤ 8202) ∨
  c.toNat = 8232 ∨ c.toNat = 8233 ∨ c.toNat = 8239 ∨ c.toNat = 8287 ∨
  c.toNat = 12288 ∨ c.toNat = 65279

/-- JavaScript `String.prototype.trim`: drop leading and trailing whitespace. -/
def jsTrim (s : String) : String :=
  String.mk (((s.data.dropWhile isJsWhitespace).reverse.dropWhile isJsWhitespace).reverse)

/-- JavaScript `String.prototype.toLowerCase`, restricted to the ASCII range
actually exercised by the module (all alias keys and prototype member names
are ASCII). -/
def jsToLower (s : String) : String :=
  String.mk (s.data.map Char.toLower)

/-- The values a binding slot can hold at runtime.  The declared type is
`BindingToken` (a string), but the unguarded alias lookup can also return the
two truthy non-string values inherited from `Object.prototype`: the `Object`
constructor function (key "constructor") and the `Object.prototype` object
(key "__proto__"), which the sanitizer then stores unchanged. -/
inductive BindingValue where
  | str (s : String)
  | objectCtor
  | objectProto
deriving DecidableEq, Repr

/-- The JavaScript property read `CANONICAL_ALIASES[key]`: own entries first
(own properties shadow inherited ones), then the inherited members of
`Object.prototype`.  After lowercasing, only the all-lowercase-named members
"constructor" and "__proto__" are reachable (see the module docstring); the
read yields `undefined` (here `none`) for every other key.  All values the
read can produce are truthy, so `if (alias) return alias` fires exactly when
this function returns `some`. -/
def aliasesGet (key : String) : Option BindingValue :=
  match List.lookup key CANONICAL_ALIASES with
  | some tok => some (BindingValue.str tok)
  | none =>
    if key = "constructor" then some BindingValue.objectCtor
    else if key = "__proto__" then some BindingValue.objectProto
    else none

/-- `normalizeBindingToken` on a string input: trim, case-insensitive alias
lookup (prototype chain included, see `aliasesGet`), then the whitelist of
structural patterns; anything else is rejected.  Each regex test of the
source is embedded as membership in the (finite) language of that regex.
The non-string entry guard of the source is `normalizeBindingValue` below. -/
def normalizeBindingToken (token : String) : Option BindingValue :=
  if token = "" then none
  else
    let raw := jsTrim token
    if raw = "" then none
    else
      match aliasesGet (jsToLower raw) with
      | some aliasVal => some aliasVal
      | none =>
        if raw ∈ KEY_CODES then some (BindingValue.str raw)
        else if raw ∈ DIGIT_CODES then some (BindingValue.str raw)
        else if raw ∈ NUMPAD_CODES then some (BindingValue.str raw)
        else if raw ∈ ARROW_CODES then some (BindingValue.str raw)
        else if raw ∈ NAMED_KEY_CODES then some (BindingValue.str raw)
        else if raw ∈ BRACKET_CODES then some (BindingValue.str raw)
        else if raw ∈ PUNCT_CODES then some (BindingValue.str raw)
        else none

/-- `getBindingEventCodes` on a string token: the logical-to-physical
expansion as declared in the source. -/
def getBindingEventCodes (token : BindingToken) : List String :=
  if token = "Shift" then ["ShiftLeft", "ShiftRight"]
  else if token = "Control" then ["ControlLeft", "ControlRight"]
  else if token = "Alt" then ["AltLeft", "AltRight"]
  else if token = "Meta" then ["MetaLeft", "MetaRight"]
  else [token]

/-- `getBindingEventCodes` as it executes on an arbitrary runtime binding
value: the switch compares the token against four string literals with
strict equality, so a non-string value falls through to the default case and
expands to itself. -/
def getBindingEventCodesV (token : BindingValue) : List BindingValue :=
  match token with
  | BindingValue.str s => (getBindingEventCodes s).map BindingValue.str
  | v => [v]

/-- The part of a DOM `KeyboardEvent` the module reads. -/
structure KeyboardEvent where
  code : String

/-- `matchesBinding`: an event matches a (string) token when its physical
code is among the token's expansion. -/
def matchesBinding (event : KeyboardEvent) (token : BindingToken) : Bool :=
  (getBindingEventCodes token).contains event.code

/-- `normalizeCapturedKey`: reject events without a resolvable physical code,
otherwise normalize the code. -/
def normalizeCapturedKey (event : KeyboardEvent) : Option BindingValue :=
  if event.code = "" ∨ event.code = "Unidentified" then none
  else normalizeBindingToken event.code

/-- `isReservedBinding` on a string token: some physical expansion lies in
the reserved set. -/
def isReservedBinding (token : BindingToken) : Bool :=
  (getBindingEventCodes token).any (fun code => RESERVED_CODES.contains code)

/-- `isReservedBinding` as it executes on an arbitrary runtime binding value:
the reserved set holds only strings, so `RESERVED_CODES.has` is false on a
non-string expansion element. -/
def isReservedBindingV (token : BindingValue) : Bool :=
  (getBindingEventCodesV token).any fun code =>
    match code with
    | BindingValue.str s => RESERVED_CODES.contains s
    | _ => false

/-- The loop body of `findBindingConflict`, recursing over the registry list. -/
def findBindingConflictAux (bindings : RuntimeKeybindings)
    (actionId : RebindableActionId) (candidate : BindingToken) :
    List RebindableActionId → Option RebindableActionId
  | [] => none
  | id :: rest =>
    if id = actionId then findBindingConflictAux bindings actionId candidate rest
    else if bindings id = candidate then some id
    else findBindingConflictAux bindings actionId candidate rest

/-- `findBindingConflict`: first other action currently bound to the candidate,
scanning the registry in declaration order. -/
def findBindingConflict (bindings : RuntimeKeybindings)
    (actionId : RebindableActionId) (candidate : BindingToken) :
    Option RebindableActionId :=
  findBindingConflictAux bindings actionId candidate REBINDABLE_ACTION_IDS

/-- Untyped JavaScript values, as far as the module can observe them
(`sanitizeBindings` receives `unknown`).  `jfun` stands for a function value
such as the inherited `Object` constructor; the module only ever inspects its
truthiness and `typeof`. -/
inductive JSValue where
  | jnull
  | jundefined
  | jbool (b : Bool)
  | jnum (n : Int)
  | jstr (s : String)
  | jobj (fields : List (String × JSValue))
  | jfun (name : String)

/-- JavaScript truthiness of a value. -/
def jsTruthy : JSValue → Bool
  | .jnull => false
  | .jundefined => false
  | .jbool b => b
  | .jnum n => n != 0
  | .jstr s => s != ""
  | .jobj _ => true
  | .jfun _ => true

/-- JavaScript `typeof`. -/
def jsTypeof : JSValue → String
  | .jnull => "object"
  | .jundefined => "undefined"
  | .jbool _ => "boolean"
  | .jnum _ => "number"
  | .jstr _ => "string"
  | .jobj _ => "object"
  | .jfun _ => "function"

/-- The fields of an object value (empty for non-objects; `sanitizeBindings`
only reaches this after its truthy-object guard). -/
def jsObjFields : JSValue → List (String × JSValue)
  | .jobj fields => fields
  | _ => []

/-- JavaScript property read `record[key]` on an object literal: the last
binding of a key wins, absent keys read as `undefined` (here: `none`). -/
def getField (fields : List (String × JSValue)) (key : String) : Option JSValue :=
  fields.foldl (fun acc kv => if kv.1 = key then some kv.2 else acc) none

/-- The untyped entry of `normalizeBindingToken`: the source's first line
`if (!token || typeof token !== "string") return null` rejects falsy and
non-string input (in particular the two inherited prototype values, should
they be fed back in), and strings continue into the string path. -/
def normalizeBindingValue (token : JSValue) : Option BindingValue :=
  if jsTruthy token = false ∨ jsTypeof token ≠ "string" then none
  else
    match token with
    | JSValue.jstr s => normalizeBindingToken s
    | _ => none

/-- The runtime shape of the record `sanitizeBindings` builds: declared as
`RuntimeKeybindings` (strings) but able to hold the two inherited prototype
values. -/
abbrev SanitizedBindings := RebindableActionId → BindingValue

/-- The copy `{...DEFAULT_RUNTIME_KEYBINDINGS}` the sanitizer starts from,
viewed in the runtime value domain (every default is a string). -/
def defaultSanitized : SanitizedBindings := fun a =>
  BindingValue.str (DEFAULT_RUNTIME_KEYBINDINGS a)

/-- The seed of the in-use token set in `sanitizeBindings`: every default
token that is not itself reserved. -/
def sanitizeInitialSeen : Finset BindingValue :=
  REBINDABLE_ACTION_IDS.foldl
    (fun s a =>
      if isReservedBindingV (defaultSanitized a) then s
      else insert (defaultSanitized a) s) ∅

/-- The per-action body of the repair loop of `sanitizeBindings`. -/
def sanitizeStep (fields : List (String × JSValue))
    (acc : SanitizedBindings × Finset BindingValue)
    (actionId : RebindableActionId) : SanitizedBindings × Finset BindingValue :=
  match getField fields (actionIdKey actionId) with
  | some (JSValue.jstr raw) =>
    match normalizeBindingToken raw with
    | some normalized =>
      if isReservedBindingV normalized then acc
      else
        let previousDefault := acc.1 actionId
        if normalized ∈ acc.2.erase previousDefault then acc
        else (Function.update acc.1 actionId normalized,
              insert normalized (acc.2.erase previousDefault))
    | none => acc
  | _ => acc

/-- `sanitizeBindings`: start from the defaults, return them outright for
falsy or non-object input, otherwise greedily merge the candidate fields in
registry order, skipping non-strings, unnormalizable tokens, reserved tokens
and duplicates.  Accepted values can be the two inherited prototype values,
which pass the truthiness, reserved and duplicate checks. -/
def sanitizeBindings (value : JSValue) : SanitizedBindings :=
  if jsTruthy value = false ∨ jsTypeof value ≠ "object" then defaultSanitized
  else
    (REBINDABLE_ACTION_IDS.foldl (sanitizeStep (jsObjFields value))
      (defaultSanitized, sanitizeInitialSeen)).1

/-- The in-memory JavaScript identity of a runtime binding value: strings are
string values, the "constructor" hit is the `Object` constructor function,
the "__proto__" hit is the `Object.prototype` object (the module only ever
inspects the truthiness and `typeof` of these, both preserved here). -/
def bindingValueToJS : BindingValue → JSValue
  | BindingValue.str s => JSValue.jstr s
  | BindingValue.objectCtor => JSValue.jfun "Object"
  | BindingValue.objectProto => JSValue.jobj []

/-- The in-memory object form of a sanitized record, as a second
`sanitizeBindings` call receives it (no serialization involved). -/
def sanitizedToJS (m : SanitizedBindings) : JSValue :=
  JSValue.jobj (REBINDABLE_ACTION_IDS.map (fun a => (actionIdKey a, bindingValueToJS (m a))))

/-- The object form of a typed (string-valued) `RuntimeKeybindings` record:
the shape in which `saveRuntimeKeybindings` passes its argument to
`sanitizeBindings(unknown)`. -/
def serializeBindings (m : RuntimeKeybindings) : JSValue :=
  JSValue.jobj (REBINDABLE_ACTION_IDS.map (fun a => (actionIdKey a, JSValue.jstr (m a))))

/-- `JSON.stringify` of the sanitized record followed by `JSON.parse`:
string-valued fields round-trip unchanged, a function-valued field (the
inherited `Object` constructor) is silently dropped by `stringify`, and the
`Object.prototype` value serializes as an empty JSON object (it has no
enumerable own properties). -/
def stringifySanitized (m : SanitizedBindings) : JSValue :=
  JSValue.jobj (REBINDABLE_ACTION_IDS.filterMap (fun a =>
    match m a with
    | BindingValue.str s => some (actionIdKey a, JSValue.jstr s)
    | BindingValue.objectCtor => none
    | BindingValue.objectProto => some (actionIdKey a, JSValue.jobj [])))

/-- The durable storage slot: `none` when the entry is absent (or the
environment has no storage), `some none` when the entry exists but its
contents do not parse as JSON (`JSON.parse` throws), `some (some v)` when the
contents parse to the structured value `v`. -/
abbrev StorageSlot := Option (Option JSValue)

/-- `loadRuntimeKeybindings`: absent or unparseable storage degrades to the
defaults (the `try`/`catch` swallows the parse failure), otherwise the parsed
value is passed through the sanitizer. -/
def loadRuntimeKeybindings (storage : StorageSlot) : SanitizedBindings :=
  match storage with
  | none => defaultSanitized
  | some none => defaultSanitized
  | some (some parsed) => sanitizeBindings parsed

/-- `saveRuntimeKeybindings`: sanitize the input, write the serialized result
to storage when the write is accepted (`storageWriteOk`; a throwing
`setItem` is swallowed and leaves the slot unchanged), and return the
sanitized mapping. -/
def saveRuntimeKeybindings (storage : StorageSlot) (bindings : RuntimeKeybindings)
    (storageWriteOk : Bool) : StorageSlot × SanitizedBindings :=
  let sanitized := sanitizeBindings (serializeBindings bindings)
  ((if storageWriteOk then some (some (stringifySanitized sanitized)) else storage),
   sanitized)

/-- `resetRuntimeKeybindings`: save the defaults. -/
def resetRuntimeKeybindings (storage : StorageSlot) (storageWriteOk : Bool) :
    StorageSlot × SanitizedBindings :=
  saveRuntimeKeybindings storage DEFAULT_RUNTIME_KEYBINDINGS storageWriteOk

/-- The adversarial candidate `{moveUp: "constructor"}`: its only field is a
string whose lowercasing names an inherited `Object.prototype` member. -/
def constructorCandidate : JSValue :=
  JSValue.jobj [("moveUp", JSValue.jstr "constructor")]

/-- A legal, string-valued `RuntimeKeybindings` record whose moveUp entry is
the string "constructor" (every value is a string, so the record satisfies
the declared record type). -/
def constructorRecord : RuntimeKeybindings := fun a =>
  match a with
  | RebindableActionId.moveUp => "constructor"
  | x => DEFAULT_RUNTIME_KEYBINDINGS x

/-! ## Sanity bridge between the string-typed and runtime-value views -/

theorem any_map_str (l : List String) (p : BindingValue → Bool) :
    (l.map BindingValue.str).any p = l.any (fun s => p (BindingValue.str s)) := by
  induction l with
  | nil => rfl
  | cons x t ih => simp [List.any_cons, ih]

/-- On string values the runtime reserved check agrees with the string-typed
`isReservedBinding`. -/
theorem isReservedBindingV_str (s : String) :
    isReservedBindingV (BindingValue.str s) = isReservedBinding s := by
  simp only [isReservedBindingV, isReservedBinding, getBindingEventCodesV]
  rw [any_map_str]

/-- C10 (code bug): the normalizer does not reject "constructor" (the
prototype-chain alias lookup returns the truthy inherited Object
constructor), and feeding that non-string output back through the
normalizer's own entry guard returns none, so not every normalizer output is
a fixed point; the normalizer does map "Escape" to "Escape". -/
theorem normalize_not_fixed :
    normalizeBindingToken "constructor" = some BindingValue.objectCtor ∧
    normalizeBindingValue (bindingValueToJS BindingValue.objectCtor) = none ∧
    normalizeBindingToken "Escape" = some (BindingValue.str "Escape") := by
  refine ⟨by decide, by decide, by decide⟩

/-- C7: `isReservedBinding` is true exactly when some physical expansion of
the token lies in the reserved set; the reserved set holds exactly Escape,
the ten digit codes, the ten numpad codes and KeyM; the four logical modifier
tokens are not reserved. -/
theorem isReserved_spec :
    (∀ t : BindingToken, isReservedBinding t = true ↔
      ∃ code ∈ getBindingEventCodes t, code ∈ RESERVED_CODES) ∧
    (∀ code : String, code ∈ RESERVED_CODES ↔
      (code = "Escape" ∨ code ∈ DIGIT_CODES ∨ code ∈ NUMPAD_CODES ∨ code = "KeyM")) ∧
    isReservedBinding "Shift" = false ∧ isReservedBinding "Control" = false ∧
    isReservedBinding "Alt" = false ∧ isReservedBinding "Meta" = false := by
  refine ⟨?_, ?_, by decide, by decide, by decide, by decide⟩
  · intro t
    unfold isReservedBinding
    rw [List.any_eq_true]
    constructor
    · rintro ⟨code, hc, hr⟩
      exact ⟨code, hc, List.elem_iff.mp hr⟩
    · rintro ⟨code, hc, hr⟩
      exact ⟨code, hc, List.elem_iff.mpr hr⟩
  · intro code
    simp only [RESERVED_CODES, DIGIT_CODES, NUMPAD_CODES, List.mem_cons,
      List.not_mem_nil, or_false]
    tauto

/-- The scan of `findBindingConflict` computes the head of the registry-order
filter of the other actions bound to the candidate. -/
theorem findBindingConflictAux_eq (m : RuntimeKeybindings) (a : RebindableActionId)
    (c : BindingToken) :
    ∀ l : List RebindableActionId,
      findBindingConflictAux m a c l =
        (l.filter (fun id => decide (id ≠ a ∧ m id = c))).head? := by
  intro l
  induction l with
  | nil => rfl
  | cons x t ih =>
    by_cases hx : x = a
    · subst hx
      simp [findBindingConflictAux, ih]
    · by_cases hm : m x = c
      · simp [findBindingConflictAux, hx, hm]
      · simp [findBindingConflictAux, hx, hm, ih]

/-- C8: `findBindingConflict` returns the first registry-order action distinct
from the one being rebound that is bound to exactly the candidate (none when
no other action holds it), it never returns the action itself, and on the
default mapping the conflict for "interact" against chat's current key is
"chat". -/
theorem findBindingConflict_spec :
    ∀ (m : RuntimeKeybindings) (a : RebindableActionId) (c : BindingToken),
      findBindingConflict m a c =
        (REBINDABLE_ACTION_IDS.filter (fun id => decide (id ≠ a ∧ m id = c))).head? ∧
      findBindingConflict m a c ≠ some a ∧
      findBindingConflict DEFAULT_RUNTIME_KEYBINDINGS RebindableActionId.interact
        (DEFAULT_RUNTIME_KEYBINDINGS RebindableActionId.chat) =
        some RebindableActionId.chat := by
  intro m a c
  refine ⟨findBindingConflictAux_eq m a c REBINDABLE_ACTION_IDS, ?_, by decide⟩
  unfold findBindingConflict
  rw [findBindingConflictAux_eq m a c REBINDABLE_ACTION_IDS]
  intro h
  have hmem := List.mem_of_mem_head? h
  have := List.of_mem_filter hmem
  simp at this

/-- Witness for C8: the conflict scenario of the spec on the default mapping. -/
theorem findBindingConflict_spec_witness :
    findBindingConflict DEFAULT_RUNTIME_KEYBINDINGS RebindableActionId.interact
      (DEFAULT_RUNTIME_KEYBINDINGS RebindableActionId.chat) =
      some RebindableActionId.chat :=
  (findBindingConflict_spec DEFAULT_RUNTIME_KEYBINDINGS RebindableActionId.interact
    (DEFAULT_RUNTIME_KEYBINDINGS RebindableActionId.chat)).2.2

/-- C4 counterexample: on the candidate with moveUp and moveRight both
requesting "KeyD", the sanitizer does NOT give moveUp the key "KeyD" (the
request is discarded because "KeyD" is still in use as moveRight's default);
moveUp stays at its default "KeyW". -/
theorem sanitize_duplicate_counterexample :
    sanitizeBindings (JSValue.jobj
        [("moveUp", JSValue.jstr "KeyD"), ("moveRight", JSValue.jstr "KeyD")])
      RebindableActionId.moveUp = BindingValue.str "KeyW" ∧
    sanitizeBindings (JSValue.jobj
        [("moveUp", JSValue.jstr "KeyD"), ("moveRight", JSValue.jstr "KeyD")])
      RebindableActionId.moveUp ≠ BindingValue.str "KeyD" := by
  constructor
  · decide
  · decide

/-- C4 amended: sanitizing the candidate with moveUp and moveRight both set
to "KeyD" returns exactly the default mapping: moveUp's conflicting request
loses (the duplicate check also counts the not-yet-processed defaults, and
"KeyD" is moveRight's default), moveRight re-receives its default "KeyD", and
every other action keeps its default. -/
theorem sanitize_duplicate_amended :
    sanitizeBindings (JSValue.jobj
        [("moveUp", JSValue.jstr "KeyD"), ("moveRight", JSValue.jstr "KeyD")]) =
      defaultSanitized := by
  decide

/-- C5 counterexample: the normalizer rejects the single-space string instead
of mapping it to "Space": trimming happens before the alias lookup, so the
literal-space alias entry is never reached. -/
theorem normalize_space_counterexample :
    normalizeBindingToken " " = none ∧
    normalizeBindingToken " " ≠ some (BindingValue.str "Space") := by
  constructor
  · decide
  · decide

/-- C5 amended: the alias table does contain the literal-space entry mapping
to "Space", but `normalizeBindingToken` trims first, so the one-space string
is rejected (returns none); the word "space" still normalizes to "Space". -/
theorem normalize_space_amended :
    List.lookup " " CANONICAL_ALIASES = some "Space" ∧
    normalizeBindingToken " " = none ∧
    normalizeBindingToken "space" = some (BindingValue.str "Space") := by
  refine ⟨by decide, by decide, by decide⟩

/-! ## Whitespace and lowercasing lemmas for the alias-collapsing claim -/

theorem char_ws_toLower {c : Char} (h : isJsWhitespace c = true) : Char.toLower c = c := by
  have h' : c.toNat = 9 ∨ c.toNat = 10 ∨ c.toNat = 11 ∨ c.toNat = 12 ∨ c.toNat = 13 ∨
      c.toNat = 32 ∨ c.toNat = 160 ∨ c.toNat = 5760 ∨
      (8192 ≤ c.toNat ∧ c.toNat ≤ 8202) ∨
      c.toNat = 8232 ∨ c.toNat = 8233 ∨ c.toNat = 8239 ∨ c.toNat = 8287 ∨
      c.toNat = 12288 ∨ c.toNat = 65279 := by
    simpa [isJsWhitespace] using h
  simp only [Char.toLower]
  rw [if_neg (by omega)]

theorem not_ws_of_toLower_not_ws {c : Char}
    (h : isJsWhitespace (Char.toLower c) = false) : isJsWhitespace c = false := by
  by_contra hc
  rw [Bool.not_eq_false] at hc
  rw [char_ws_toLower hc] at h
  simp [hc] at h

theorem dropWhile_eq_self_of_forall {p : Char → Bool} {l : List Char}
    (h : ∀ c ∈ l, p c = false) : l.dropWhile p = l := by
  cases l with
  | nil => rfl
  | cons c t => exact List.dropWhile_cons_of_neg (by simp [h c (List.mem_cons_self c t)])

theorem jsTrim_eq_self {s : String} (h : ∀ c ∈ s.data, isJsWhitespace c = false) :
    jsTrim s = s := by
  unfold jsTrim
  rw [dropWhile_eq_self_of_forall h,
    dropWhile_eq_self_of_forall (fun c hc => h c (List.mem_reverse.mp hc)),
    List.reverse_reverse]

theorem jsToLower_data (s : String) : (jsToLower s).data = s.data.map Char.toLower := rfl

theorem no_ws_of_jsToLower {s key : String} (h : jsToLower s = key)
    (hkey : ∀ c ∈ key.data, isJsWhitespace c = false) :
    ∀ c ∈ s.data, isJsWhitespace c = false := by
  intro c hc
  apply not_ws_of_toLower_not_ws
  apply hkey
  rw [← h, jsToLower_data]
  exact List.mem_map_of_mem _ hc

/-- Any string whose lowercasing is a whitespace-free non-empty own alias
key normalizes to that alias's canonical token. -/
theorem normalize_alias_of_jsToLower {s key tok : String}
    (hkey : jsToLower s = key)
    (hne : key ≠ "")
    (hnw : ∀ c ∈ key.data, isJsWhitespace c = false)
    (hlk : List.lookup key CANONICAL_ALIASES = some tok) :
    normalizeBindingToken s = some (BindingValue.str tok) := by
  have hsnw : ∀ c ∈ s.data, isJsWhitespace c = false := no_ws_of_jsToLower hkey hnw
  have htrim : jsTrim s = s := jsTrim_eq_self hsnw
  have hsne : s ≠ "" := by
    intro hs
    subst hs
    exact hne (by rw [← hkey]; rfl)
  simp only [normalizeBindingToken, aliasesGet, htrim, hkey, hlk, hsne, if_false]

/-- C6: any casing of "shiftleft", "shiftright" or "shift" normalizes to the
single logical token "Shift"; that token expands to exactly the two physical
codes ShiftLeft and ShiftRight; the reserved check tests both physical slots;
runtime event matching accepts exactly those two physical codes; and the
conflict check fires against any other action currently holding "Shift". -/
theorem shift_alias_collapsing :
    ∀ s : String,
      (jsToLower s = "shiftleft" ∨ jsToLower s = "shiftright" ∨ jsToLower s = "shift") →
      normalizeBindingToken s = some (BindingValue.str "Shift") ∧
      getBindingEventCodes "Shift" = ["ShiftLeft", "ShiftRight"] ∧
      (isReservedBinding "Shift" = true ↔
        ("ShiftLeft" ∈ RESERVED_CODES ∨ "ShiftRight" ∈ RESERVED_CODES)) ∧
      (∀ e : KeyboardEvent, matchesBinding e "Shift" = true ↔
        (e.code = "ShiftLeft" ∨ e.code = "ShiftRight")) ∧
      (∀ (m : RuntimeKeybindings) (a b : RebindableActionId), a ≠ b → m b = "Shift" →
        findBindingConflict m a "Shift" ≠ none) := by
  intro s hs
  refine ⟨?_, rfl, by decide, ?_, ?_⟩
  · rcases hs with h | h | h
    · exact normalize_alias_of_jsToLower h (by decide) (by decide) (by decide)
    · exact normalize_alias_of_jsToLower h (by decide) (by decide) (by decide)
    · exact normalize_alias_of_jsToLower h (by decide) (by decide) (by decide)
  · intro e
    rw [show matchesBinding e "Shift" =
        (["ShiftLeft", "ShiftRight"] : List String).contains e.code from rfl,
      List.elem_iff]
    simp
  · intro m a b hab hb hnone
    unfold findBindingConflict at hnone
    rw [findBindingConflictAux_eq] at hnone
    rw [List.head?_eq_none_iff] at hnone
    have hbmem : b ∈ REBINDABLE_ACTION_IDS := by
      have hall : ∀ x : RebindableActionId, x ∈ REBINDABLE_ACTION_IDS := by decide
      exact hall b
    have hbf : b ∈ REBINDABLE_ACTION_IDS.filter
        (fun id => decide (id ≠ a ∧ m id = "Shift")) :=
      List.mem_filter.mpr ⟨hbmem, by simp [hb]; exact Ne.symm hab⟩
    rw [hnone] at hbf
    exact absurd hbf (List.not_mem_nil b)

/-- Witness for C6 at the concrete casing "ShIfTrIgHt", with the conflict
part exercised on the default mapping (sprint holds "Shift" there). -/
theorem shift_alias_collapsing_witness :
    normalizeBindingToken "ShIfTrIgHt" = some (BindingValue.str "Shift") ∧
    findBindingConflict DEFAULT_RUNTIME_KEYBINDINGS RebindableActionId.interact
      "Shift" ≠ none := by
  have h := shift_alias_collapsing "ShIfTrIgHt" (Or.inr (Or.inl (by decide)))
  exact ⟨h.1, h.2.2.2.2 DEFAULT_RUNTIME_KEYBINDINGS RebindableActionId.interact
    RebindableActionId.sprint (by decide) (by decide)⟩

/-- C1 (code bug): at the candidate `{moveUp: "constructor"}` the sanitizer
binds moveUp to the inherited Object constructor (the alias lookup walks the
prototype chain and the value passes the truthiness, reserved and duplicate
checks), so the returned mapping does not give every ActionId a string
BindingToken, contradicting the claimed completeness and the declared
`Record<RebindableActionId, BindingToken>` return type. -/
theorem sanitize_constructor_not_token :
    sanitizeBindings constructorCandidate RebindableActionId.moveUp =
      BindingValue.objectCtor ∧
    ∀ s : String,
      sanitizeBindings constructorCandidate RebindableActionId.moveUp ≠
        BindingValue.str s := by
  have h1 : sanitizeBindings constructorCandidate RebindableActionId.moveUp =
      BindingValue.objectCtor := by decide
  refine ⟨h1, ?_⟩
  intro s hs
  rw [h1] at hs
  cases hs

/-- Witness for the C1 failing-input theorem at the concrete token "KeyW". -/
theorem sanitize_constructor_not_token_witness :
    sanitizeBindings constructorCandidate RebindableActionId.moveUp ≠
      BindingValue.str "KeyW" :=
  sanitize_constructor_not_token.2 "KeyW"

/-- C2 (code bug): sanitization is not idempotent: sanitizing
`{moveUp: "constructor"}` commits the inherited Object constructor as
moveUp's binding, and re-sanitizing that in-memory output skips the
non-string field and falls back to the default "KeyW", so the second
sanitization differs from the first. -/
theorem sanitize_not_idempotent :
    sanitizeBindings constructorCandidate RebindableActionId.moveUp =
      BindingValue.objectCtor ∧
    sanitizeBindings (sanitizedToJS (sanitizeBindings constructorCandidate))
      RebindableActionId.moveUp = BindingValue.str "KeyW" ∧
    sanitizeBindings (sanitizedToJS (sanitizeBindings constructorCandidate)) ≠
      sanitizeBindings constructorCandidate := by
  refine ⟨by decide, by decide, by decide⟩

/-- C3 (code bug): for the legal string-valued record whose moveUp entry is
"constructor", the save path sanitizes it to a function-valued binding that
`JSON.stringify` silently drops, so an immediate load returns the default
"KeyW" for moveUp while the sanitized form of the record holds the Object
constructor: load after save is not `sanitize(m)`. -/
theorem save_load_round_trip_fails :
    loadRuntimeKeybindings (saveRuntimeKeybindings none constructorRecord true).1
      RebindableActionId.moveUp = BindingValue.str "KeyW" ∧
    sanitizeBindings (serializeBindings constructorRecord)
      RebindableActionId.moveUp = BindingValue.objectCtor ∧
    loadRuntimeKeybindings (saveRuntimeKeybindings none constructorRecord true).1 ≠
      sanitizeBindings (serializeBindings constructorRecord) := by
  refine ⟨by decide, by decide, by decide⟩

/-- C9 (code bug): with the stored entry parsing to `{moveUp: "constructor"}`
the load path returns a mapping whose moveUp binding is the inherited Object
constructor, not a string BindingToken, so load does not always return a
valid mapping. -/
theorem load_constructor_invalid :
    loadRuntimeKeybindings (some (some constructorCandidate))
      RebindableActionId.moveUp = BindingValue.objectCtor ∧
    ∀ s : String,
      loadRuntimeKeybindings (some (some constructorCandidate))
        RebindableActionId.moveUp ≠ BindingValue.str s := by
  have h1 : loadRuntimeKeybindings (some (some constructorCandidate))
      RebindableActionId.moveUp = BindingValue.objectCtor := by decide
  refine ⟨h1, ?_⟩
  intro s hs
  rw [h1] at hs
  cases hs

/-- Witness for the C9 failing-input theorem at the concrete token "KeyW". -/
theorem load_constructor_invalid_witness :
    loadRuntimeKeybindings (some (some constructorCandidate))
      RebindableActionId.moveUp ≠ BindingValue.str "KeyW" :=
  load_constructor_invalid.2 "KeyW"
